import Mathlib

/-!
Verification development for the BioSQL adaptation layer
(`BioSQL/BioSeqDatabase.py`) and the phylogenetic tree format dispatcher
(`Bio/TreeIO/__init__.py`).

The embedding has five parts:
1. a model of the Python values and exceptions the layer manipulates;
2. a character-level model of the Python `str.split(sep)` method;
3. a relational model of the `biodatabase` and `bioentry` tables together
   with the `Adaptor` fetch functions, the `DBServer` and `BioSeqDatabase`
   mapping operations, and the `load` method;
4. a row-level model of the raw cursor, the `_CursorWrapper`, and the
   `MysqlConnectorAdaptor` overrides;
5. the tree format dispatcher.
-/

/-! ### Part 1: Python values and exceptions -/

/-- The Python exceptions raised in `BioSQL/BioSeqDatabase.py`, each with its
message string. `integrityError` stands for the driver exception class
`conn.IntegrityError` raised by the duplicate-record workaround. -/
inductive PyExc where
  | typeError (msg : String)
  | valueError (msg : String)
  | keyError (msg : String)
  | indexError (msg : String)
  | assertionError (msg : String)
  | integrityError (msg : String)
deriving Repr, DecidableEq

/-- The Python values that reach `BioSeqDatabase.__contains__` and
`BioSeqDatabase.__delitem__` as keys: integers, strings, `None`, and lists
(`vlist` stands for any list value; the `int()` conversion behaviour does not
depend on the elements). -/
inductive PyVal where
  | vint (n : Int)
  | vstr (s : String)
  | vnone
  | vlist
deriving Repr, DecidableEq

/-- Drop leading and trailing whitespace, as the Python `int()` builtin does
before parsing a string. -/
def trimSpaces (l : List Char) : List Char :=
  ((l.dropWhile Char.isWhitespace).reverse.dropWhile Char.isWhitespace).reverse

/-- Digits-to-number accumulator for `pyStrToInt`. -/
def natOfDigits (l : List Char) : Nat :=
  l.foldl (fun n c => 10 * n + (c.toNat - 48)) 0

/-- The Python `int(s)` builtin on a string: surrounding whitespace is
ignored, an optional sign is allowed, and the rest must be a nonempty run of
decimal digits; any other string raises `ValueError` (`none` here). -/
def pyStrToInt (s : String) : Option Int :=
  match trimSpaces s.data with
  | [] => none
  | '-' :: ds =>
      if ds ≠ [] ∧ ds.all Char.isDigit then some (-(natOfDigits ds : Int)) else none
  | '+' :: ds =>
      if ds ≠ [] ∧ ds.all Char.isDigit then some ((natOfDigits ds : Int)) else none
  | ds =>
      if ds.all Char.isDigit then some ((natOfDigits ds : Int)) else none

/-- The Python `int(v)` builtin on an arbitrary value: integers convert to
themselves, strings are parsed (`ValueError` on failure), and `None` or a
list raise `TypeError`. -/
def pyToInt (v : PyVal) : Except PyExc Int :=
  match v with
  | .vint n => .ok n
  | .vstr s =>
      match pyStrToInt s with
      | some n => .ok n
      | none => .error (.valueError ("invalid literal for int with base 10: " ++ s))
  | .vnone => .error (.typeError "int argument must be a string or a number, not NoneType")
  | .vlist => .error (.typeError "int argument must be a string or a number, not list")

/-- The Python `str(v)` conversion used when a value is interpolated into a
SQL string with the percent operator: `None` renders as the text `None`. -/
def pyStrOfOpt (v : Option String) : String :=
  match v with
  | some s => s
  | none => "None"

/-- Rendering of a key for a `KeyError` message. -/
def pyvalRepr (v : PyVal) : String :=
  match v with
  | .vint n => toString n
  | .vstr s => s
  | .vnone => "None"
  | .vlist => "[]"

/-! ### Part 2: the Python `str.split(sep)` method -/

/-- The Python `str.split(sep)` method on the character list of a string,
for a one-character separator: splitting the empty string gives one empty
field, and every occurrence of the separator starts a new field. -/
def pySplitChars (sep : Char) : List Char → List (List Char)
  | [] => [[]]
  | c :: cs =>
      if c == sep then [] :: pySplitChars sep cs
      else
        match pySplitChars sep cs with
        | [] => [[c]]
        | p :: ps => (c :: p) :: ps

/-- The Python `str.split(sep)` method for a one-character separator. -/
def pySplit (sep : Char) (s : String) : List String :=
  (pySplitChars sep s.data).map String.mk

theorem pySplitChars_ne_nil (sep : Char) (l : List Char) :
    pySplitChars sep l ≠ [] := by
  induction l with
  | nil => simp [pySplitChars]
  | cons c cs ih =>
      simp only [pySplitChars]
      by_cases h : c == sep
      · simp [h]
      · simp only [h, if_neg]
        cases hr : pySplitChars sep cs with
        | nil => exact absurd hr ih
        | cons p ps => simp

theorem length_pySplitChars (sep : Char) (l : List Char) :
    (pySplitChars sep l).length = l.count sep + 1 := by
  induction l with
  | nil => simp [pySplitChars]
  | cons c cs ih =>
      simp only [pySplitChars]
      by_cases h : c == sep
      · have hc : c = sep := by
          simpa using h
        simp [h, hc, ih, List.count_cons]
      · have hc : ¬ c = sep := by
          simpa using h
        cases hr : pySplitChars sep cs with
        | nil => exact absurd hr (pySplitChars_ne_nil sep cs)
        | cons p ps =>
            simp only [h, if_neg, hr]
            rw [hr] at ih
            simp only [List.length_cons] at ih ⊢
            simp [List.count_cons, hc, ih]

theorem pySplitChars_of_not_mem (sep : Char) (l : List Char) (h : sep ∉ l) :
    pySplitChars sep l = [l] := by
  induction l with
  | nil => simp [pySplitChars]
  | cons c cs ih =>
      have hc : ¬ (c == sep) := by
        simp only [List.mem_cons, not_or] at h
        simpa using fun he => h.1 he.symm
      have hcs : sep ∉ cs := by
        simp only [List.mem_cons, not_or] at h
        exact h.2
      simp [pySplitChars, hc, ih hcs]

theorem pySplitChars_append (sep : Char) (a b : List Char)
    (ha : sep ∉ a) (hb : sep ∉ b) :
    pySplitChars sep (a ++ sep :: b) = [a, b] := by
  induction a with
  | nil => simp [pySplitChars, pySplitChars_of_not_mem sep b hb]
  | cons c cs ih =>
      have hc : ¬ (c == sep) := by
        simp only [List.mem_cons, not_or] at ha
        simpa using fun he => ha.1 he.symm
      have hcs : sep ∉ cs := by
        simp only [List.mem_cons, not_or] at ha
        exact ha.2
      simp [pySplitChars, hc, ih hcs]

theorem pySplit_of_not_mem (sep : Char) (s : String) (h : sep ∉ s.data) :
    pySplit sep s = [s] := by
  simp [pySplit, pySplitChars_of_not_mem sep s.data h]

theorem string_data_append (a b : String) : (a ++ b).data = a.data ++ b.data := by
  cases a
  cases b
  rfl

theorem pySplit_append_dot (a b : String)
    (ha : '.' ∉ a.data) (hb : '.' ∉ b.data) :
    pySplit '.' (a ++ "." ++ b) = [a, b] := by
  have hd : (a ++ "." ++ b).data = a.data ++ '.' :: b.data := by
    rw [string_data_append, string_data_append,
      show ("." : String).data = ['.'] from rfl]
    simp
  simp [pySplit, hd, pySplitChars_append '.' a.data b.data ha hb]

theorem length_pySplit (sep : Char) (s : String) :
    (pySplit sep s).length = s.data.count sep + 1 := by
  simp [pySplit, length_pySplitChars]

/-! ### Part 3: the relational model of the BioSQL tables -/

/-- One row of the `biodatabase` table: an internal numeric id and the
namespace name. -/
structure BiodatabaseRow where
  id : Nat
  name : String
deriving Repr, DecidableEq, Inhabited

/-- One row of the `bioentry` table, restricted to the columns the adaptation
layer queries: internal id, owning namespace id, display name, accession,
version, and alternate identifier. The `version` column is kept as the string
the layer binds into its queries. -/
structure BioentryRow where
  id : Nat
  dbid : Nat
  name : String
  accession : String
  version : String
  identifier : String
deriving Repr, DecidableEq, Inhabited

/-- The state of the backend as the adaptation layer sees it. -/
structure DB where
  biodatabase : List BiodatabaseRow
  bioentry : List BioentryRow
deriving Repr, DecidableEq, Inhabited

/-- The `if dbid:` guard the fetch functions use before appending the
`and biodatabase_id = %s` clause: a falsy (zero) dbid disables the filter. -/
def dbidMatch (dbid : Nat) (e : BioentryRow) : Bool :=
  dbid == 0 || e.dbid == dbid

/-- `Adaptor.fetch_dbid_by_dbname`: select `biodatabase_id` by namespace name;
an empty result raises `KeyError`, otherwise the first row is returned. -/
def fetch_dbid_by_dbname (db : DB) (dbname : String) : Except PyExc Nat :=
  match db.biodatabase.find? (fun b => b.name == dbname) with
  | none => .error (.keyError ("Cannot find biodatabase with name " ++ dbname))
  | some b => .ok b.id

/-- `Adaptor.fetch_seqid_by_display_id`: select by `name` (and namespace when
the dbid is truthy); zero rows raise `IndexError` not-found, more than one row
raises `IndexError` ambiguous, otherwise the single id is returned. -/
def fetch_seqid_by_display_id (db : DB) (dbid : Nat) (name : String) :
    Except PyExc Nat :=
  match db.bioentry.filter (fun e => e.name == name && dbidMatch dbid e) with
  | [] => .error (.indexError ("Cannot find display id " ++ name))
  | [e] => .ok e.id
  | _ :: _ :: _ => .error (.indexError ("More than one entry with display id " ++ name))

/-- `Adaptor.fetch_seqid_by_accession`: same zero/one/many semantics as
`fetch_seqid_by_display_id`, on the `accession` column. -/
def fetch_seqid_by_accession (db : DB) (dbid : Nat) (name : String) :
    Except PyExc Nat :=
  match db.bioentry.filter (fun e => e.accession == name && dbidMatch dbid e) with
  | [] => .error (.indexError ("Cannot find accession " ++ name))
  | [e] => .ok e.id
  | _ :: _ :: _ => .error (.indexError ("More than one entry with accession " ++ name))

/-- `Adaptor.fetch_seqids_by_accession`: all ids with a given accession. -/
def fetch_seqids_by_accession (db : DB) (dbid : Nat) (name : String) : List Nat :=
  (db.bioentry.filter (fun e => e.accession == name && dbidMatch dbid e)).map
    (fun e => e.id)

/-- The query half of `Adaptor.fetch_seqid_by_version`: select by accession
and version (and namespace when the dbid is truthy); error messages mention
the original `name` argument, as in the source. -/
def fetch_seqid_by_acc_ver (db : DB) (dbid : Nat) (acc ver origName : String) :
    Except PyExc Nat :=
  match db.bioentry.filter
      (fun e => e.accession == acc && e.version == ver && dbidMatch dbid e) with
  | [] => .error (.indexError ("Cannot find version " ++ origName))
  | [e] => .ok e.id
  | _ :: _ :: _ => .error (.indexError ("More than one entry with version " ++ origName))

/-- `Adaptor.fetch_seqid_by_version`: the argument is split on `.`; more than
two fields raise `IndexError` bad-version before any query; two fields give
accession and version; one field gives the whole argument as accession with
version `0`. -/
def fetch_seqid_by_version (db : DB) (dbid : Nat) (name : String) :
    Except PyExc Nat :=
  if (pySplit '.' name).length > 2 then
    .error (.indexError ("Bad version " ++ name))
  else if (pySplit '.' name).length == 2 then
    fetch_seqid_by_acc_ver db dbid ((pySplit '.' name).headD "")
      ((pySplit '.' name).getD 1 "") name
  else
    fetch_seqid_by_acc_ver db dbid ((pySplit '.' name).headD "") "0" name

/-- `Adaptor.fetch_seqid_by_identifier`: select by the `identifier` column;
zero rows raise `IndexError`, otherwise the first id is returned (duplicates
are tolerated). -/
def fetch_seqid_by_identifier (db : DB) (dbid : Nat) (identifier : String) :
    Except PyExc Nat :=
  match db.bioentry.find? (fun e => e.identifier == identifier && dbidMatch dbid e) with
  | none => .error (.indexError ("Cannot find display id " ++ identifier))
  | some e => .ok e.id

/-- `Adaptor.list_biodatabase_names`: column 0 of `SELECT name FROM
biodatabase`. -/
def list_biodatabase_names (db : DB) : List String :=
  db.biodatabase.map (fun b => b.name)

/-- `Adaptor.list_bioentry_ids`: all record ids of one namespace. -/
def list_bioentry_ids (db : DB) (dbid : Nat) : List Nat :=
  (db.bioentry.filter (fun e => e.dbid == dbid)).map (fun e => e.id)

/-- `DBServer.__contains__`: `bool` of `SELECT COUNT(name) FROM biodatabase
WHERE name=%s`. -/
def serverContains (db : DB) (name : String) : Bool :=
  db.biodatabase.any (fun b => b.name == name)

/-- Modelled from the spec: `Loader.DatabaseRemover` is not under `src/`.
Per the spec, deleting a namespace "removes the namespace row and,
transitively, every record and sub-record row belonging to it, via the Record
Loader removal routine"; we model this as dropping the `biodatabase` row with
the given id and every `bioentry` row owned by it. -/
def databaseRemoverRemove (db : DB) (dbid : Nat) : DB :=
  { biodatabase := db.biodatabase.filter (fun b => b.id != dbid),
    bioentry := db.bioentry.filter (fun e => e.dbid != dbid) }

/-- `DBServer.__delitem__`: a missing name raises `KeyError`; otherwise the
namespace id is fetched and the Record Loader removal routine is run. -/
def serverDelitem (db : DB) (name : String) : Except PyExc DB :=
  if serverContains db name = false then .error (.keyError name)
  else
    match fetch_dbid_by_dbname db name with
    | .error e => .error e
    | .ok dbid => .ok (databaseRemoverRemove db dbid)

/-- `BioSeqDatabase.__contains__`: the key is converted with `int()`, a
`ValueError` is caught and turns into `False`, any other exception
propagates; a successfully converted key is counted against the `bioentry`
table restricted to this namespace. -/
def bioseqdb_contains (db : DB) (dbid : Nat) (v : PyVal) : Except PyExc Bool :=
  match pyToInt v with
  | .ok n =>
      .ok (decide (0 < (db.bioentry.filter
        (fun e => e.dbid == dbid && ((e.id : Int) == n))).length))
  | .error (.valueError _) => .ok false
  | .error e => .error e

/-- The SQL equality test of the raw delete key against the integer
`bioentry_id` column (numeric strings coerce, other values match nothing). -/
def pyvalEqId (v : PyVal) (id : Nat) : Bool :=
  match v with
  | .vint n => n == (id : Int)
  | .vstr s => pyStrToInt s == some ((id : Int))
  | _ => false

/-- `BioSeqDatabase.__delitem__`: a key that is not contained raises
`KeyError`; otherwise the `bioentry` row of this namespace with that id is
deleted. An exception escaping the containment test propagates. -/
def bioseqdb_delitem (db : DB) (dbid : Nat) (key : PyVal) : Except PyExc DB :=
  match bioseqdb_contains db dbid key with
  | .error e => .error e
  | .ok false => .error (.keyError (pyvalRepr key))
  | .ok true =>
      .ok { db with
              bioentry := db.bioentry.filter
                (fun e => !(e.dbid == dbid && pyvalEqId key e.id)) }

/-- Modelled from the spec: `BioSQL.BioSeq.DBSeqRecord` is not under `src/`.
Per the spec a record reference "uniquely identifies a record row" and the
constructor receives only the shared adaptor and the internal reference (see
`BioSeqDatabase.__getitem__`, which passes `self.adaptor` and `key` but not
`self.dbid`), so the record is fetched by its internal reference through the
adaptor single-row fetch, with no namespace filter. -/
def DBSeqRecord_init (db : DB) (key : Nat) : Except PyExc BioentryRow :=
  match db.bioentry.filter (fun e => e.id == key) with
  | [e] => .ok e
  | rv => .error (.assertionError ("Expected 1 response, got " ++ toString rv.length))

/-- `BioSeqDatabase.__getitem__`: builds a record from the shared adaptor and
the key alone; the namespace id held by the object is not consulted. -/
def bioseqdb_getitem (db : DB) (_dbid : Nat) (key : Nat) :
    Except PyExc BioentryRow :=
  DBSeqRecord_init db key

/-- The keys of `_allowed_lookups`. -/
def allowedLookups : List String :=
  ["primary_id", "gi", "display_id", "name", "accession", "version"]

/-- `BioSeqDatabase.lookup`: anything but exactly one keyword argument raises
`TypeError`; a key outside `_allowed_lookups` raises `TypeError`; otherwise
the fetch function the key maps to is applied to the value. -/
def db_lookup (db : DB) (dbid : Nat) (kwargs : List (String × String)) :
    Except PyExc Nat :=
  if kwargs.length ≠ 1 then .error (.typeError "single key/value parameter expected")
  else
    let k := (kwargs.headD ("", "")).1
    let v := (kwargs.headD ("", "")).2
    if k == "primary_id" || k == "gi" then fetch_seqid_by_identifier db dbid v
    else if k == "display_id" || k == "name" then fetch_seqid_by_display_id db dbid v
    else if k == "accession" then fetch_seqid_by_accession db dbid v
    else if k == "version" then fetch_seqid_by_version db dbid v
    else .error (.typeError ("lookup() expects one of " ++
      String.intercalate ", " allowedLookups ++ ", not " ++ k))

/-! ### Part 3b: the load path and its duplicate pre-check -/

/-- The fields of an in-memory record that `BioSeqDatabase.load` reads: the
record id string and the optional `gi` annotation value. -/
structure SeqRecord where
  id : String
  gi : Option String
deriving Repr, DecidableEq, Inhabited

/-- The accession and version `BioSeqDatabase.load` recreates from the record
id for the duplicate pre-check: when the id contains exactly one `.` it is
split into accession and integer version, falling back to the whole id with
version 0 when the version part is not an integer; otherwise the whole id is
the accession and the version is 0. -/
def loadAccVer (rid : String) : String × Int :=
  if rid.data.count '.' == 1 then
    match pyStrToInt ((pySplit '.' rid).getD 1 "") with
    | some n => ((pySplit '.' rid).headD "", n)
    | none => (rid, 0)
  else (rid, 0)

/-- The duplicate pre-check query of `BioSeqDatabase.load`: a row of this
namespace matching the record identifier (the `gi` annotation interpolated
with `str`), or matching the recreated accession and version, is a duplicate.
A truthy `fetchone` result means some row matched. -/
def dupCheck (db : DB) (dbid : Nat) (r : SeqRecord) : Bool :=
  db.bioentry.any (fun e =>
    (e.identifier == pyStrOfOpt r.gi && e.dbid == dbid) ||
    (e.accession == (loadAccVer r.id).1 &&
      e.version == toString (loadAccVer r.id).2 && e.dbid == dbid))

/-- A fresh `bioentry` id for an inserted row. -/
def freshBioentryId (db : DB) : Nat :=
  db.bioentry.foldl (fun m e => max m e.id) 0 + 1

/-- Modelled from the spec: `Loader.DatabaseLoader.load_seqrecord` is not
under `src/`. Per the spec the Record Loader, "given a biological record
object, inserts/updates all of its normalized rows"; we model the insert as
appending one `bioentry` row for this namespace with a fresh internal id and
the fields the loader derives from the record (the comment in
`BioSeqDatabase.load` states that the pre-check recreates what the loader
`_load_bioentry_table` does with the record id). -/
def loadSeqrecord (dbid : Nat) (r : SeqRecord) (db : DB) : DB :=
  { db with
      bioentry := db.bioentry ++
        [{ id := freshBioentryId db, dbid := dbid, name := r.id,
           accession := (loadAccVer r.id).1,
           version := toString (loadAccVer r.id).2,
           identifier := pyStrOfOpt r.gi }] }

/-- `BioSeqDatabase.load`: iterates over the records in order; when the
compatibility flag `_POSTGRES_RULES_PRESENT` is set, each record is first
checked for a duplicate and a match raises the driver `IntegrityError`,
aborting the whole load; otherwise the record is handed to the Record Loader.
On success the number of records processed is returned. -/
def load (flag : Bool) (dbid : Nat) (db : DB) (records : List SeqRecord) :
    Except PyExc (Nat × DB) :=
  match records with
  | [] => .ok (0, db)
  | r :: rs =>
      if flag && dupCheck db dbid r then
        .error (.integrityError "Duplicate record detected: record has not been inserted")
      else
        match load flag dbid (loadSeqrecord dbid r db) rs with
        | .ok (n, db2) => .ok (n + 1, db2)
        | .error e => .error e

/-! ### Part 4: the row-level cursor and adaptor model -/

/-- A value in a row returned by the raw database driver. The payload of a
byte string (`vbytes`) or a `bytearray` (`vbytearray`) is represented by its
UTF-8 decoding. -/
inductive SqlVal where
  | text (s : String)
  | num (n : Int)
  | vbytes (s : String)
  | vbytearray (s : String)
  | null
deriving Repr, DecidableEq, Inhabited

/-- A row returned by the driver: first column plus remaining columns (SQL
result rows always have at least one column). -/
abbrev SqlRow := SqlVal × List SqlVal

/-- Whether a value is a byte sequence (bytes or bytearray). -/
def isByteVal (v : SqlVal) : Bool :=
  match v with
  | .vbytes _ => true
  | .vbytearray _ => true
  | _ => false

/-- The element conversion of `_CursorWrapper._convert_tuple`: only values
whose type is exactly `bytes` are decoded; `bytearray` values pass through. -/
def convert_elem (v : SqlVal) : SqlVal :=
  match v with
  | .vbytes s => .text s
  | w => w

/-- `_CursorWrapper._convert_tuple`. -/
def convert_tuple (r : SqlRow) : SqlRow :=
  (convert_elem r.1, r.2.map convert_elem)

/-- `_CursorWrapper._convert_list`. -/
def convert_list (rows : List SqlRow) : List SqlRow :=
  rows.map convert_tuple

/-- What `cursor.fetchall()` yields to the adaptor, given the raw driver
rows: the wrapped cursor (`wrap_cursor=True`, used for `mysql.connector`
under Python 3) converts each tuple, the plain cursor returns the rows as
they are. -/
def cursor_fetchall (wrap : Bool) (rows : List SqlRow) : List SqlRow :=
  if wrap then convert_list rows else rows

/-- Modelled from the spec: `Bio._py3k._bytes_bytearray_to_str` is not under
`src/`. Per the spec the specialized adaptor "decodes every returned
byte-sequence field to text (UTF-8)"; both byte strings and bytearrays are
decoded, other values pass through. -/
def bytearray_to_str (v : SqlVal) : SqlVal :=
  match v with
  | .vbytes s => .text s
  | .vbytearray s => .text s
  | w => w

/-- `Adaptor.execute_and_fetchall`, as a function of the raw rows the driver
produced for the executed query. -/
def adaptor_execute_and_fetchall (wrap : Bool) (rows : List SqlRow) : List SqlRow :=
  cursor_fetchall wrap rows

/-- `Adaptor.execute_and_fetch_col0`: first field of each fetched row. -/
def adaptor_execute_and_fetch_col0 (wrap : Bool) (rows : List SqlRow) : List SqlVal :=
  (cursor_fetchall wrap rows).map (fun r => r.1)

/-- `Adaptor.execute_one`: asserts that exactly one row was fetched and
returns it; any other row count is an assertion failure. -/
def adaptor_execute_one (wrap : Bool) (rows : List SqlRow) : Except PyExc SqlRow :=
  match cursor_fetchall wrap rows with
  | [r] => .ok r
  | rv => .error (.assertionError ("Expected 1 response, got " ++ toString rv.length))

/-- `MysqlConnectorAdaptor.execute_one`: the base result with every field
scrubbed through `bytearray_to_str`. -/
def mysql_execute_one (wrap : Bool) (rows : List SqlRow) : Except PyExc SqlRow :=
  (adaptor_execute_one wrap rows).map
    (fun r => (bytearray_to_str r.1, r.2.map bytearray_to_str))

/-- `MysqlConnectorAdaptor.execute_and_fetch_col0`. -/
def mysql_execute_and_fetch_col0 (wrap : Bool) (rows : List SqlRow) : List SqlVal :=
  (adaptor_execute_and_fetch_col0 wrap rows).map bytearray_to_str

/-- `MysqlConnectorAdaptor.execute_and_fetchall`. -/
def mysql_execute_and_fetchall (wrap : Bool) (rows : List SqlRow) : List SqlRow :=
  (adaptor_execute_and_fetchall wrap rows).map
    (fun r => (bytearray_to_str r.1, r.2.map bytearray_to_str))

/-- `Adaptor.list_biodatabase_names` on the MySQL connector adaptor: built on
the overridden `execute_and_fetch_col0`, so it inherits the scrub. -/
def mysql_list_biodatabase_names (wrap : Bool) (rows : List SqlRow) : List SqlVal :=
  mysql_execute_and_fetch_col0 wrap rows

/-- `Adaptor.fetch_seqids_by_accession` on the MySQL connector adaptor: also
built on the overridden `execute_and_fetch_col0`. -/
def mysql_fetch_seqids_by_accession (wrap : Bool) (rows : List SqlRow) : List SqlVal :=
  mysql_execute_and_fetch_col0 wrap rows

/-- `Adaptor.fetch_seqid_by_display_id` at the cursor level: the method calls
`self.execute` and then reads `self.cursor.fetchall()` directly, bypassing
the `execute_and_*` helpers; `MysqlConnectorAdaptor` does not override it, so
only the cursor wrapper conversion applies to its rows. -/
def cursor_fetch_seqid_by_display_id (wrap : Bool) (rows : List SqlRow) :
    Except PyExc SqlVal :=
  match cursor_fetchall wrap rows with
  | [] => .error (.indexError "Cannot find display id")
  | [r] => .ok r.1
  | _ :: _ :: _ => .error (.indexError "More than one entry with display id")

/-! ### Part 5: the tree format dispatcher -/

/-- `Bio.TreeIO.read`: only the format name `phyloxml` is dispatched to the
external parser; any other format name returns no result (`None`). -/
def treeio_read {F T : Type} (phyloRead : F → T) (file : F) (format : String) :
    Option T :=
  if format = "phyloxml" then some (phyloRead file) else none

/-- `Bio.TreeIO.write`: only the format name `phyloxml` is dispatched to the
external serializer; any other format name returns no result (`None`). -/
def treeio_write {F T R : Type} (phyloWrite : T → F → Option String → R)
    (obj : T) (file : F) (format : String) (encoding : Option String) :
    Option R :=
  if format = "phyloxml" then some (phyloWrite obj file encoding) else none

/-! ### Shared helper lemmas -/

theorem isByteVal_bytearray_to_str (v : SqlVal) :
    isByteVal (bytearray_to_str v) = false := by
  cases v <;> rfl

/-! ### Claims -/

/-- C9: for every format name other than `phyloxml`, the tree dispatcher
`read` and `write` return no result (fail silently) rather than raising; only
`phyloxml` is wired to the external parser/serializer. -/
theorem c9_tree_dispatch_silent :
    (∀ (F T : Type) (phyloRead : F → T) (file : F) (format : String),
      format ≠ "phyloxml" → treeio_read phyloRead file format = none) ∧
    (∀ (F T R : Type) (phyloWrite : T → F → Option String → R) (obj : T)
      (file : F) (format : String) (encoding : Option String),
      format ≠ "phyloxml" →
        treeio_write phyloWrite obj file format encoding = none) := by
  constructor
  · intro F T phyloRead file format h
    simp [treeio_read, h]
  · intro F T R phyloWrite obj file format encoding h
    simp [treeio_write, h]

theorem c9_tree_dispatch_silent_witness :
    ("newick" ≠ "phyloxml") ∧
    treeio_read (fun _ : Unit => (0 : Nat)) () "newick" = none ∧
    treeio_write (fun (_ : Nat) (_ : Unit) (_ : Option String) => (0 : Nat))
      0 () "newick" none = none :=
  ⟨by decide,
   c9_tree_dispatch_silent.1 Unit Nat (fun _ => 0) () "newick" (by decide),
   c9_tree_dispatch_silent.2 Unit Nat Nat (fun _ _ _ => 0) 0 () "newick" none
     (by decide)⟩

/-- C8: a zero-row result makes `execute_one` fail with an assertion failure
(not a recoverable error value), and `execute_one` returns a row only when the
fetched result consists of exactly one row. -/
theorem c8_execute_one_asserts :
    (∀ (wrap : Bool) (rows : List SqlRow), rows = [] →
      adaptor_execute_one wrap rows =
        .error (.assertionError "Expected 1 response, got 0")) ∧
    (∀ (wrap : Bool) (rows : List SqlRow) (r : SqlRow),
      adaptor_execute_one wrap rows = .ok r →
        (cursor_fetchall wrap rows).length = 1) := by
  constructor
  · intro wrap rows h
    subst h
    cases wrap <;> rfl
  · intro wrap rows r h
    unfold adaptor_execute_one at h
    cases hc : cursor_fetchall wrap rows with
    | nil => rw [hc] at h; simp at h
    | cons a tl =>
        cases tl with
        | nil => simp
        | cons b tl2 => rw [hc] at h; simp at h

theorem c8_execute_one_asserts_witness :
    adaptor_execute_one false ([] : List SqlRow) =
      .error (.assertionError "Expected 1 response, got 0") ∧
    (cursor_fetchall false [((SqlVal.num 5), [])]).length = 1 :=
  ⟨c8_execute_one_asserts.1 false [] rfl,
   c8_execute_one_asserts.2 false [((SqlVal.num 5), [])] ((SqlVal.num 5), []) rfl⟩

/-- C5 counterexample: on the MySQL connector adaptor with the wrapped cursor
(the configuration the source creates for that driver), the display-id lookup
reads the cursor directly, and a `bytearray` field in the fetched row is
returned to the caller undecoded — so a caller of an adaptor method does
observe a byte-sequence value, refuting the universal claim. -/
theorem c5_uniform_decode_counterexample :
    cursor_fetch_seqid_by_display_id true [((SqlVal.vbytearray "7"), [])] =
      .ok (SqlVal.vbytearray "7") ∧
    isByteVal (SqlVal.vbytearray "7") = true :=
  ⟨rfl, rfl⟩

/-- C5 amended: the specialized adaptor variant decodes every byte-sequence
field (bytes and bytearray) of every row returned by `execute_one`,
`execute_and_fetchall`, and `execute_and_fetch_col0`, and hence by the
listing and lookup operations built on those helpers; lookups that read the
cursor directly are outside this guarantee. -/
theorem c5_uniform_decode_of_helpers :
    (∀ (wrap : Bool) (rows : List SqlRow) (r : SqlRow),
      mysql_execute_one wrap rows = .ok r →
        isByteVal r.1 = false ∧ ∀ v ∈ r.2, isByteVal v = false) ∧
    (∀ (wrap : Bool) (rows : List SqlRow) (v : SqlVal),
      v ∈ mysql_execute_and_fetch_col0 wrap rows → isByteVal v = false) ∧
    (∀ (wrap : Bool) (rows : List SqlRow) (t : SqlRow),
      t ∈ mysql_execute_and_fetchall wrap rows →
        isByteVal t.1 = false ∧ ∀ v ∈ t.2, isByteVal v = false) ∧
    (∀ (wrap : Bool) (rows : List SqlRow) (v : SqlVal),
      v ∈ mysql_list_biodatabase_names wrap rows → isByteVal v = false) ∧
    (∀ (wrap : Bool) (rows : List SqlRow) (v : SqlVal),
      v ∈ mysql_fetch_seqids_by_accession wrap rows → isByteVal v = false) := by
  have hcol0 : ∀ (wrap : Bool) (rows : List SqlRow) (v : SqlVal),
      v ∈ mysql_execute_and_fetch_col0 wrap rows → isByteVal v = false := by
    intro wrap rows v hv
    simp only [mysql_execute_and_fetch_col0, List.mem_map] at hv
    obtain ⟨u, _, rfl⟩ := hv
    exact isByteVal_bytearray_to_str u
  refine ⟨?_, hcol0, ?_, hcol0, hcol0⟩
  · intro wrap rows r h
    unfold mysql_execute_one at h
    cases ha : adaptor_execute_one wrap rows with
    | error e => rw [ha] at h; simp [Except.map] at h
    | ok r0 =>
        rw [ha] at h
        simp only [Except.map, Except.ok.injEq] at h
        subst h
        refine ⟨isByteVal_bytearray_to_str r0.1, ?_⟩
        intro v hv
        simp only [List.mem_map] at hv
        obtain ⟨u, _, rfl⟩ := hv
        exact isByteVal_bytearray_to_str u
  · intro wrap rows t ht
    simp only [mysql_execute_and_fetchall, List.mem_map] at ht
    obtain ⟨u, _, rfl⟩ := ht
    refine ⟨isByteVal_bytearray_to_str u.1, ?_⟩
    intro v hv
    simp only [List.mem_map] at hv
    obtain ⟨w, _, rfl⟩ := hv
    exact isByteVal_bytearray_to_str w

theorem c5_uniform_decode_of_helpers_witness :
    mysql_execute_one true [((SqlVal.vbytearray "x"), [SqlVal.vbytes "y"])] =
      .ok ((SqlVal.text "x"), [SqlVal.text "y"]) ∧
    isByteVal (SqlVal.text "x") = false ∧
    isByteVal (SqlVal.text "y") = false :=
  ⟨rfl,
   (c5_uniform_decode_of_helpers.1 true [((SqlVal.vbytearray "x"), [SqlVal.vbytes "y"])]
     ((SqlVal.text "x"), [SqlVal.text "y"]) rfl).1,
   (c5_uniform_decode_of_helpers.1 true [((SqlVal.vbytearray "x"), [SqlVal.vbytes "y"])]
     ((SqlVal.text "x"), [SqlVal.text "y"]) rfl).2 (SqlVal.text "y") (by simp)⟩

/-- C2: the version lookup parses its value as `accession[.version]`: with no
dot the whole value is the accession and the version defaults to the string
`0`; with exactly one dot the prefix is the accession and the suffix the
version; with more than one dot it fails with the bad-version format error,
whatever the database holds (so without querying). -/
theorem c2_version_lookup_parse :
    (∀ (db : DB) (dbid : Nat) (v : String), '.' ∉ v.data →
      fetch_seqid_by_version db dbid v = fetch_seqid_by_acc_ver db dbid v "0" v) ∧
    (∀ (db : DB) (dbid : Nat) (a b : String), '.' ∉ a.data → '.' ∉ b.data →
      fetch_seqid_by_version db dbid (a ++ "." ++ b) =
        fetch_seqid_by_acc_ver db dbid a b (a ++ "." ++ b)) ∧
    (∀ (db : DB) (dbid : Nat) (v : String), 2 ≤ v.data.count '.' →
      fetch_seqid_by_version db dbid v =
        .error (.indexError ("Bad version " ++ v))) := by
  refine ⟨?_, ?_, ?_⟩
  · intro db dbid v h
    rw [fetch_seqid_by_version, pySplit_of_not_mem '.' v h]
    simp
  · intro db dbid a b ha hb
    rw [fetch_seqid_by_version, pySplit_append_dot a b ha hb]
    simp
  · intro db dbid v h
    have h2 : (pySplit '.' v).length > 2 := by
      rw [length_pySplit]
      omega
    rw [fetch_seqid_by_version]
    simp [h2]

/-- Concrete database for the C2 witness. -/
def c2db : DB :=
  { biodatabase := [{ id := 1, name := "test" }],
    bioentry := [{ id := 42, dbid := 1, name := "rec", accession := "X77802",
                   version := "1", identifier := "g1" }] }

theorem c2_version_lookup_parse_witness :
    fetch_seqid_by_version c2db 1 ("X77802" ++ "." ++ "1") =
      fetch_seqid_by_acc_ver c2db 1 "X77802" "1" ("X77802" ++ "." ++ "1") ∧
    fetch_seqid_by_acc_ver c2db 1 "X77802" "1" "X77802.1" = .ok 42 ∧
    fetch_seqid_by_version c2db 1 "X77802" =
      fetch_seqid_by_acc_ver c2db 1 "X77802" "0" "X77802" ∧
    fetch_seqid_by_version c2db 1 "a.b.c" =
      .error (.indexError ("Bad version " ++ "a.b.c")) :=
  ⟨c2_version_lookup_parse.2.1 c2db 1 "X77802" "1" (by decide) (by decide),
   rfl,
   c2_version_lookup_parse.1 c2db 1 "X77802" (by decide),
   c2_version_lookup_parse.2.2 c2db 1 "a.b.c" (by decide)⟩

/-- C3: a non-numeric string key is treated as absent by the namespace
membership test (no exception, result `False`), while deleting by the same
key raises `KeyError` (not found): the asymmetric contract between the two
operations. -/
theorem c3_contains_delete_asymmetry :
    ∀ (db : DB) (dbid : Nat) (s : String), pyStrToInt s = none →
      bioseqdb_contains db dbid (PyVal.vstr s) = .ok false ∧
      bioseqdb_delitem db dbid (PyVal.vstr s) = .error (.keyError s) := by
  intro db dbid s h
  have hc : bioseqdb_contains db dbid (PyVal.vstr s) = .ok false := by
    rw [bioseqdb_contains, pyToInt, h]
  refine ⟨hc, ?_⟩
  rw [bioseqdb_delitem, hc]
  rfl

theorem c3_contains_delete_asymmetry_witness :
    pyStrToInt "abc" = none ∧
    bioseqdb_contains c2db 1 (PyVal.vstr "abc") = .ok false ∧
    bioseqdb_delitem c2db 1 (PyVal.vstr "abc") = .error (.keyError "abc") :=
  ⟨by decide,
   (c3_contains_delete_asymmetry c2db 1 "abc" (by decide)).1,
   (c3_contains_delete_asymmetry c2db 1 "abc" (by decide)).2⟩

/-- C10: the treated-as-absent behaviour of the membership test covers only
keys whose `int()` conversion raises `ValueError` (non-numeric strings); for
`None` or a list, where `int()` raises `TypeError`, that exception propagates
to the caller instead of yielding `False`, because only `ValueError` is
caught. -/
theorem c10_contains_catches_only_value_error :
    (∀ (db : DB) (dbid : Nat) (s : String), pyStrToInt s = none →
      bioseqdb_contains db dbid (PyVal.vstr s) = .ok false) ∧
    (∀ (db : DB) (dbid : Nat),
      bioseqdb_contains db dbid PyVal.vnone =
        .error (.typeError "int argument must be a string or a number, not NoneType")) ∧
    (∀ (db : DB) (dbid : Nat),
      bioseqdb_contains db dbid PyVal.vlist =
        .error (.typeError "int argument must be a string or a number, not list")) := by
  refine ⟨?_, ?_, ?_⟩
  · intro db dbid s h
    rw [bioseqdb_contains, pyToInt, h]
  · intro db dbid
    rfl
  · intro db dbid
    rfl

theorem c10_contains_catches_only_value_error_witness :
    pyStrToInt "xyz" = none ∧
    bioseqdb_contains c2db 1 (PyVal.vstr "xyz") = .ok false ∧
    bioseqdb_contains c2db 1 PyVal.vnone =
      .error (.typeError "int argument must be a string or a number, not NoneType") ∧
    bioseqdb_contains c2db 1 PyVal.vlist =
      .error (.typeError "int argument must be a string or a number, not list") :=
  ⟨by decide,
   c10_contains_catches_only_value_error.1 c2db 1 "xyz" (by decide),
   c10_contains_catches_only_value_error.2.1 c2db 1,
   c10_contains_catches_only_value_error.2.2 c2db 1⟩

/-- C6: the alternate-key lookup fails fast with a usage error (`TypeError`)
when zero keys or more than one key are supplied, and with a usage error when
the single key is outside the allowed set — in every case independently of
the database, so before any backend query. -/
theorem c6_lookup_usage_errors :
    (∀ (db : DB) (dbid : Nat) (kwargs : List (String × String)),
      kwargs.length ≠ 1 →
        db_lookup db dbid kwargs =
          .error (.typeError "single key/value parameter expected")) ∧
    (∀ (db : DB) (dbid : Nat) (k v : String), k ∉ allowedLookups →
      db_lookup db dbid [(k, v)] =
        .error (.typeError ("lookup() expects one of " ++
          String.intercalate ", " allowedLookups ++ ", not " ++ k))) := by
  constructor
  · intro db dbid kwargs h
    rw [db_lookup]
    simp [h]
  · intro db dbid k v h
    simp only [allowedLookups, List.mem_cons, List.not_mem_nil, or_false,
      not_or] at h
    obtain ⟨h1, h2, h3, h4, h5, h6⟩ := h
    rw [db_lookup]
    simp [h1, h2, h3, h4, h5, h6]

theorem c6_lookup_usage_errors_witness :
    db_lookup c2db 1 [] = .error (.typeError "single key/value parameter expected") ∧
    db_lookup c2db 1 [("accession", "X77802"), ("version", "1")] =
      .error (.typeError "single key/value parameter expected") ∧
    ("subsequence" ∉ allowedLookups) ∧
    db_lookup c2db 1 [("subsequence", "X")] =
      .error (.typeError ("lookup() expects one of " ++
        String.intercalate ", " allowedLookups ++ ", not " ++ "subsequence")) :=
  ⟨c6_lookup_usage_errors.1 c2db 1 [] (by decide),
   c6_lookup_usage_errors.1 c2db 1 [("accession", "X77802"), ("version", "1")]
     (by decide),
   by decide,
   c6_lookup_usage_errors.2 c2db 1 "subsequence" "X" (by decide)⟩

/-- C1: with the compatibility flag set, `load` pre-checks each record for a
duplicate by identifier or accession+version before inserting it, and a
duplicate aborts the whole load immediately with the driver Conflict error
before that record is inserted; with the flag unset there is no pre-check and
every record is inserted unconditionally. -/
theorem c1_load_duplicate_precheck :
    (∀ (dbid : Nat) (db : DB) (records : List SeqRecord),
      load false dbid db records =
        .ok (records.length,
          records.foldl (fun d r => loadSeqrecord dbid r d) db)) ∧
    (∀ (dbid : Nat) (db : DB) (r : SeqRecord) (rs : List SeqRecord),
      dupCheck db dbid r = true →
        load true dbid db (r :: rs) =
          .error (.integrityError
            "Duplicate record detected: record has not been inserted")) ∧
    (∀ (dbid : Nat) (db : DB) (r : SeqRecord) (rs : List SeqRecord),
      dupCheck db dbid r = false →
        load true dbid db (r :: rs) =
          (load true dbid (loadSeqrecord dbid r db) rs).map
            (fun p => (p.1 + 1, p.2))) := by
  refine ⟨?_, ?_, ?_⟩
  · intro dbid db records
    induction records generalizing db with
    | nil => rfl
    | cons r rs ih =>
        rw [load]
        simp only [Bool.false_and, if_neg Bool.false_ne_true, ih]
        rfl
  · intro dbid db r rs h
    rw [load]
    simp [h]
  · intro dbid db r rs h
    rw [load]
    simp only [h, Bool.and_false, if_neg Bool.false_ne_true]
    cases hx : load true dbid (loadSeqrecord dbid r db) rs with
    | ok p => cases p; rfl
    | error e => rfl

/-- Concrete database and records for the C1 witness. -/
def c1db : DB :=
  { biodatabase := [{ id := 1, name := "test" }],
    bioentry := [{ id := 5, dbid := 1, name := "X", accession := "X77802",
                   version := "1", identifier := "g123" }] }

/-- A record that duplicates the row of `c1db` by accession and version. -/
def c1rec : SeqRecord := { id := "X77802.1", gi := some "g999" }

/-- A record matching nothing in `c1db`. -/
def c1fresh : SeqRecord := { id := "Y", gi := none }

theorem c1_load_duplicate_precheck_witness :
    load false 1 c1db [c1rec] = .ok (1, loadSeqrecord 1 c1rec c1db) ∧
    dupCheck c1db 1 c1rec = true ∧
    load true 1 c1db [c1rec] =
      .error (.integrityError
        "Duplicate record detected: record has not been inserted") ∧
    dupCheck c1db 1 c1fresh = false ∧
    load true 1 c1db [c1fresh] =
      (load true 1 (loadSeqrecord 1 c1fresh c1db) []).map
        (fun p => (p.1 + 1, p.2)) :=
  ⟨c1_load_duplicate_precheck.1 1 c1db [c1rec],
   by decide,
   c1_load_duplicate_precheck.2.1 1 c1db c1rec [] (by decide),
   by decide,
   c1_load_duplicate_precheck.2.2 1 c1db c1fresh [] (by decide)⟩

/-- Concrete database for C4: record 10 belongs to namespace 1 (`A`), while
namespace 2 (`B`) owns nothing. -/
def c4db : DB :=
  { biodatabase := [{ id := 1, name := "A" }, { id := 2, name := "B" }],
    bioentry := [{ id := 10, dbid := 1, name := "r", accession := "x",
                   version := "0", identifier := "g" }] }

/-- C4 counterexample: looking up reference 10 on namespace `B` (internal id
2) succeeds and returns the row owned by namespace `A`, instead of failing
with a NotFound error as the claim states. -/
theorem c4_foreign_ref_counterexample :
    bioseqdb_getitem c4db 2 10 =
      .ok { id := 10, dbid := 1, name := "r", accession := "x",
            version := "0", identifier := "g" } ∧
    fetch_dbid_by_dbname c4db "B" = .ok 2 ∧
    c4db.bioentry.all (fun e => e.dbid != 2) = true :=
  ⟨rfl, rfl, rfl⟩

/-- C4 amended: the per-namespace lookup by internal reference does not
consult the namespace at all — its result is the same for every namespace
over the same backend; a reference with exactly one matching row is returned
whatever namespace owns it, and a reference with no matching row fails with
the single-row fetch assertion failure rather than a NotFound error. -/
theorem c4_getitem_ignores_namespace :
    (∀ (db : DB) (d1 d2 key : Nat),
      bioseqdb_getitem db d1 key = bioseqdb_getitem db d2 key) ∧
    (∀ (db : DB) (dbid key : Nat) (e : BioentryRow),
      db.bioentry.filter (fun r => r.id == key) = [e] →
        bioseqdb_getitem db dbid key = .ok e) ∧
    (∀ (db : DB) (dbid key : Nat),
      db.bioentry.filter (fun r => r.id == key) = [] →
        bioseqdb_getitem db dbid key =
          .error (.assertionError "Expected 1 response, got 0")) := by
  refine ⟨?_, ?_, ?_⟩
  · intro db d1 d2 key
    rfl
  · intro db dbid key e h
    rw [bioseqdb_getitem, DBSeqRecord_init, h]
  · intro db dbid key h
    rw [bioseqdb_getitem, DBSeqRecord_init, h]
    rfl

theorem c4_getitem_ignores_namespace_witness :
    bioseqdb_getitem c4db 7 10 =
      .ok { id := 10, dbid := 1, name := "r", accession := "x",
            version := "0", identifier := "g" } ∧
    bioseqdb_getitem c4db 1 99 =
      .error (.assertionError "Expected 1 response, got 0") :=
  ⟨c4_getitem_ignores_namespace.2.1 c4db 7 10
     { id := 10, dbid := 1, name := "r", accession := "x",
       version := "0", identifier := "g" } rfl,
   c4_getitem_ignores_namespace.2.2 c4db 1 99 rfl⟩

/-- C7: deleting a namespace fails with NotFound (`KeyError`) when the name
is absent; when present (names being unique, as the schema guarantees) it
removes the namespace row and, transitively, every record row belonging to
it, after which the name is absent from the membership test and from the name
listing, and a second delete of the same name fails with NotFound. -/
theorem c7_server_delete_cascades :
    (∀ (db : DB) (name : String), serverContains db name = false →
      serverDelitem db name = .error (.keyError name)) ∧
    (∀ (db : DB) (name : String),
      (db.biodatabase.map BiodatabaseRow.name).Nodup →
      serverContains db name = true →
      ∃ dbid db2,
        fetch_dbid_by_dbname db name = .ok dbid ∧
        serverDelitem db name = .ok db2 ∧
        serverContains db2 name = false ∧
        name ∉ list_biodatabase_names db2 ∧
        (∀ e ∈ db2.bioentry, e.dbid ≠ dbid) ∧
        serverDelitem db2 name = .error (.keyError name)) := by
  have habsent : ∀ (db : DB) (name : String), serverContains db name = false →
      serverDelitem db name = .error (.keyError name) := by
    intro db name h
    rw [serverDelitem, if_pos h]
  refine ⟨habsent, ?_⟩
  intro db name hnodup hc
  cases hf : db.biodatabase.find? (fun b => b.name == name) with
  | none =>
      exfalso
      rw [serverContains, List.any_eq_true] at hc
      obtain ⟨b, hb, hbn⟩ := hc
      have := List.find?_eq_none.mp hf b hb
      exact this hbn
  | some f =>
      have hfmem : f ∈ db.biodatabase := List.mem_of_find?_eq_some hf
      have hfname : f.name = name := by
        have := List.find?_some hf
        simpa using this
      have hnc : serverContains (databaseRemoverRemove db f.id) name = false := by
        rw [serverContains, List.any_eq_false]
        intro b hb
        simp only [databaseRemoverRemove, List.mem_filter] at hb
        intro hbn
        have hbname : b.name = name := by simpa using hbn
        have hbf : b = f := List.inj_on_of_nodup_map hnodup hb.1 hfmem
          (by rw [hbname, hfname])
        rw [hbf] at hb
        simp at hb
      refine ⟨f.id, databaseRemoverRemove db f.id, ?_, ?_, hnc, ?_, ?_,
        habsent _ _ hnc⟩
      · rw [fetch_dbid_by_dbname, hf]
      · rw [serverDelitem, fetch_dbid_by_dbname, hf]
        simp [hc]
      · rw [list_biodatabase_names]
        intro hmem
        simp only [databaseRemoverRemove, List.mem_map, List.mem_filter] at hmem
        obtain ⟨b, ⟨hb, hbid⟩, hbn⟩ := hmem
        have hbf : b = f := List.inj_on_of_nodup_map hnodup hb hfmem
          (by rw [hbn, hfname])
        rw [hbf] at hbid
        simp at hbid
      · intro e he
        simp only [databaseRemoverRemove, List.mem_filter] at he
        simpa using he.2

/-- Concrete database for the C7 witness: two namespaces, each owning one
record. -/
def c7db : DB :=
  { biodatabase := [{ id := 1, name := "A" }, { id := 2, name := "B" }],
    bioentry := [{ id := 10, dbid := 1, name := "r", accession := "a",
                   version := "0", identifier := "g" },
                 { id := 20, dbid := 2, name := "s", accession := "b",
                   version := "0", identifier := "h" }] }

theorem c7_server_delete_cascades_witness :
    serverDelitem c7db "C" = .error (.keyError "C") ∧
    (∃ dbid db2,
      fetch_dbid_by_dbname c7db "A" = .ok dbid ∧
      serverDelitem c7db "A" = .ok db2 ∧
      serverContains db2 "A" = false ∧
      "A" ∉ list_biodatabase_names db2 ∧
      (∀ e ∈ db2.bioentry, e.dbid ≠ dbid) ∧
      serverDelitem db2 "A" = .error (.keyError "A")) :=
  ⟨c7_server_delete_cascades.1 c7db "C" (by decide),
   c7_server_delete_cascades.2 c7db "A" (by decide) (by decide)⟩
